import Mathlib

/-!
Shallow embedding of neon-PHAL-plugin-network-manager
(src/neon_phal_network_manager/__init__.py): the ConnectivityState enum, the
NetworkManager synchronous-to-asynchronous DBus bridge (shared state slot, the
two threading events, the lazily started worker thread), and the
NetworkManagerEvents plugin glue. Machine-level concurrency is modelled by
making the outcome of each bus call and of each bounded wait an explicit
parameter; the shared mutable fields become an explicit record threaded through
the operations.
-/

namespace NeonPhalNM

/-- The five-valued connectivity enum, source lines 16-38. Numeric values are
UNKNOWN = 0, NONE = 1, PORTAL = 2, LIMITED = 3, FULL = 4. -/
inductive ConnectivityState where
  | UNKNOWN
  | NONE
  | PORTAL
  | LIMITED
  | FULL
deriving DecidableEq, Repr

/-- Numeric value of each enum member as declared in the source. -/
def ConnectivityState.toNat : ConnectivityState → Nat
  | ConnectivityState.UNKNOWN => 0
  | ConnectivityState.NONE => 1
  | ConnectivityState.PORTAL => 2
  | ConnectivityState.LIMITED => 3
  | ConnectivityState.FULL => 4

/-- The IntEnum constructor call ConnectivityState(x): yields the member whose
value is x and raises ValueError for any other integer; the raise is modelled
as none. -/
def ConnectivityState.ofInt? : Int → Option ConnectivityState
  | 0 => some ConnectivityState.UNKNOWN
  | 1 => some ConnectivityState.NONE
  | 2 => some ConnectivityState.PORTAL
  | 3 => some ConnectivityState.LIMITED
  | 4 => some ConnectivityState.FULL
  | _ => none

/-- The dbus-next message types relevant to the worker loop. -/
inductive DbusMessageType where
  | METHOD_CALL
  | METHOD_RETURN
  | ERROR
  | SIGNAL
deriving DecidableEq, Repr

/-- A DBus method-call message as constructed by the worker (destination, path,
interface, member), source lines 133-138. -/
structure DbusMessage where
  destination : String
  path : String
  interface : String
  member : String
deriving DecidableEq, Repr

/-- One body field of a DBus reply: an integer, or a value of any other
(non-integer) type. -/
inductive DbusValue where
  | int (n : Int)
  | other
deriving DecidableEq, Repr

/-- A DBus reply message: its message type and its body fields. -/
structure DbusReply where
  message_type : DbusMessageType
  body : List DbusValue
deriving DecidableEq, Repr

/-- Outcome of one awaited bus.call: a reply message is returned, or the call
raises an exception. -/
inductive CallOutcome where
  | reply (r : DbusReply)
  | exn
deriving DecidableEq, Repr

/-- The cross-thread shared state of a NetworkManager instance: the state slot
self._state, the two threading events self._state_requested and
self._state_ready, and whether the thread handle self._dbus_thread is set
(true means not None). -/
structure NMState where
  state : ConnectivityState
  state_requested : Bool
  state_ready : Bool
  dbus_thread : Bool
deriving DecidableEq, Repr

/-- NetworkManager.__init__, source lines 53-68: slot UNKNOWN, both events
clear, no thread started yet. -/
def NetworkManager.init : NMState :=
  { state := ConnectivityState.UNKNOWN
    state_requested := false
    state_ready := false
    dbus_thread := false }

/-- DEFAULT_TIMEOUT = 1.0 seconds, source line 50. -/
def DEFAULT_TIMEOUT : Rat := 1

/-- The single remote call issued by the worker, source lines 132-138. -/
def checkConnectivityMessage : DbusMessage :=
  { destination := "org.freedesktop.NetworkManager"
    path := "/org/freedesktop/NetworkManager"
    interface := "org.freedesktop.NetworkManager"
    member := "CheckConnectivity" }

/-- Source line 130: self._state = ConnectivityState.UNKNOWN, executed after
the request wait returns and before the bus call is issued. -/
def workerResetState (st : NMState) : NMState :=
  { st with state := ConnectivityState.UNKNOWN }

/-- Decoding ConnectivityState(reply.body[0]), source line 141: in Python this
raises IndexError when the body is empty, TypeError / ValueError when the first
field is not an integer in 0..4; every raise is modelled as none. -/
def decodeReply (r : DbusReply) : Option ConnectivityState :=
  match r.body with
  | DbusValue.int n :: _ => ConnectivityState.ofInt? n
  | DbusValue.other :: _ => none
  | [] => none

/-- Result of one iteration of the worker loop: the shared state afterwards,
the remote calls issued during the iteration, and whether an exception escaped
the iteration (which terminates the loop). -/
structure IterResult where
  st : NMState
  calls : List DbusMessage
  raised : Bool
deriving DecidableEq, Repr

/-- One iteration of the worker loop body, source lines 129-145, entered after
self._state_requested.wait() has returned: reset the slot to UNKNOWN, issue
exactly one CheckConnectivity call, store the decoded first body field when the
reply is not of error type, then clear "requested" and set "ready". An
exception (bus-call failure, or a decode failure on a non-error reply) escapes
before the two flag updates run. -/
def workerIteration (st0 : NMState) (out : CallOutcome) : IterResult :=
  let st1 := workerResetState st0
  match out with
  | CallOutcome.exn =>
      { st := st1, calls := [checkConnectivityMessage], raised := true }
  | CallOutcome.reply r =>
      if r.message_type ≠ DbusMessageType.ERROR then
        match decodeReply r with
        | some s =>
            { st := { st1 with
                        state := s
                        state_requested := false
                        state_ready := true }
              calls := [checkConnectivityMessage]
              raised := false }
        | none =>
            { st := st1, calls := [checkConnectivityMessage], raised := true }
      else
        { st := { st1 with state_requested := false, state_ready := true }
          calls := [checkConnectivityMessage]
          raised := false }

/-- The worker loop (while True, source lines 127-145), consuming one bus-call
outcome per serviced request. Returns the final shared state and whether an
exception escaped the loop; an exhausted outcome list models the worker still
blocked in self._state_requested.wait(). -/
def workerLoop (st : NMState) : List CallOutcome → NMState × Bool
  | [] => (st, false)
  | out :: rest =>
      let r := workerIteration st out
      if r.raised then (r.st, true) else workerLoop r.st rest

/-- Whether establishing the bus connection (source lines 113-125) succeeds. -/
inductive ConnectOutcome where
  | connected
  | connectError
deriving DecidableEq, Repr

/-- The worker procedure _dbus_thread_proc_async, source lines 110-150: connect
to the bus, run the request loop; any exception anywhere inside is logged and
swallowed (the procedure still yields a state, never an error value), and on
exit the thread handle is cleared (self._dbus_thread = None, line 150). When
the loop is still blocked waiting for a request, line 150 has not run and the
handle is intact. -/
def dbus_thread_proc_async (conn : ConnectOutcome) (outs : List CallOutcome)
    (st : NMState) : NMState :=
  match conn with
  | ConnectOutcome.connectError => { st with dbus_thread := false }
  | ConnectOutcome.connected =>
      let res := workerLoop st outs
      if res.2 then { res.1 with dbus_thread := false } else res.1

/-- _ensure_thread_started, source lines 93-101: create and start the worker
thread exactly when the handle is None. -/
def ensure_thread_started (st : NMState) : NMState :=
  if st.dbus_thread = false then { st with dbus_thread := true } else st

/-- get_state, source lines 83-91, with the outcome of the bounded wait made
explicit: workerAct = none models the wait timing out before the worker
serviced the request (the shared fields are then as the caller left them);
some out models the worker completing one loop iteration, with bus outcome out,
before the wait returns; when that iteration raises, the caller times out and
the dying worker clears the thread handle. The timeout argument bounds only how
long the caller blocks; the returned value is always whatever the state slot
holds at return time, and the function is total: get_state never raises. -/
def get_state (st : NMState) (timeout : Rat) (workerAct : Option CallOutcome) :
    NMState × ConnectivityState :=
  let st1 := ensure_thread_started st
  let st2 := { st1 with state_ready := false, state_requested := true }
  let st3 :=
    match workerAct with
    | none => st2
    | some out =>
        let r := workerIteration st2 out
        if r.raised then { r.st with dbus_thread := false } else r.st
  (st3, st3.state)

/-- The state classification inside is_internet_connected, source line 81:
state == ConnectivityState.FULL. -/
def internet_connected_class (s : ConnectivityState) : Bool :=
  s == ConnectivityState.FULL

/-- The state classification inside is_network_connected, source lines 73-77:
membership in the set containing PORTAL, LIMITED and FULL. -/
def network_connected_class (s : ConnectivityState) : Bool :=
  s == ConnectivityState.PORTAL || s == ConnectivityState.LIMITED ||
    s == ConnectivityState.FULL

/-- is_network_connected, source lines 70-77. -/
def is_network_connected (st : NMState) (timeout : Rat)
    (workerAct : Option CallOutcome) : Bool :=
  network_connected_class (get_state st timeout workerAct).2

/-- is_internet_connected, source lines 79-81. -/
def is_internet_connected (st : NMState) (timeout : Rat)
    (workerAct : Option CallOutcome) : Bool :=
  internet_connected_class (get_state st timeout workerAct).2

/-- One externally observable round trip of the bridge: a get_state call with
its timeout and the outcome of its wait. -/
def runEvent (st : NMState) (e : Rat × Option CallOutcome) : NMState :=
  (get_state st e.1 e.2).1

/-- The states reachable from a given state by a sequence of get_state round
trips. -/
def run (st : NMState) : List (Rat × Option CallOutcome) → NMState
  | [] => st
  | e :: es => run (runEvent st e) es

/-- NetworkManagerEvents.__init__ sets self.sleep_time = 60, source line 156:
the default re-poll interval in seconds. -/
def NetworkManagerEvents.sleep_time : Nat := 60

/-- handle_check, source lines 161-177: given the state obtained from
get_state, the list of reply message types emitted, then the sleep duration and
the re-emitted original message type (which re-triggers the handler). The
IntEnum comparison state > ConnectivityState.NONE is numeric. -/
def handle_check (sleep_time : Nat) (state : ConnectivityState)
    (msg_type : String) : List String × Nat × String :=
  let replies :=
    if state == ConnectivityState.FULL then
      ["ovos.phal.connectivity.internet.connected", "mycroft.internet.connected"]
    else if ConnectivityState.NONE.toNat < state.toNat then
      ["ovos.phal.connectivity.network.connected"]
    else
      ["ovos.phal.connectivity.disconnected", "enclosure.notify.no_internet"]
  (replies, sleep_time, msg_type)

/-- C1: every serviced request issues exactly one remote call, namely
CheckConnectivity on destination org.freedesktop.NetworkManager, object path
/org/freedesktop/NetworkManager, interface org.freedesktop.NetworkManager; and
when the reply is a non-error message whose first body field is an integer
decoding to a ConnectivityState, the shared state slot is set to that value and
get_state returns exactly it. Moreover every integer in 0..4 decodes, to the
member with that numeric value. -/
theorem C1_one_call_per_request_and_exact_decode
    (st : NMState) (t : Rat) (out : CallOutcome)
    (r : DbusReply) (n : Int) (s : ConnectivityState)
    (hmt : r.message_type ≠ DbusMessageType.ERROR)
    (hbody : r.body.head? = some (DbusValue.int n))
    (hdec : ConnectivityState.ofInt? n = some s) :
    (workerIteration st out).calls = [checkConnectivityMessage] ∧
    checkConnectivityMessage.destination = "org.freedesktop.NetworkManager" ∧
    checkConnectivityMessage.path = "/org/freedesktop/NetworkManager" ∧
    checkConnectivityMessage.interface = "org.freedesktop.NetworkManager" ∧
    checkConnectivityMessage.member = "CheckConnectivity" ∧
    (get_state st t (some (CallOutcome.reply r))).1.state = s ∧
    (get_state st t (some (CallOutcome.reply r))).2 = s ∧
    (∀ m : Int, 0 ≤ m → m ≤ 4 →
      ∃ u : ConnectivityState, ConnectivityState.ofInt? m = some u ∧
        (u.toNat : Int) = m) := by
  have hdr : decodeReply r = some s := by
    cases hb : r.body with
    | nil => rw [hb] at hbody; simp at hbody
    | cons v rest =>
      cases v with
      | int m =>
          rw [hb] at hbody
          simp only [List.head?_cons, Option.some.injEq, DbusValue.int.injEq] at hbody
          subst hbody
          simp [decodeReply, hb, hdec]
      | other => rw [hb] at hbody; simp at hbody
  have hcalls : (workerIteration st out).calls = [checkConnectivityMessage] := by
    cases out with
    | exn => rfl
    | reply r2 =>
        by_cases h : r2.message_type = DbusMessageType.ERROR
        · simp [workerIteration, h]
        · cases hd : decodeReply r2 <;> simp [workerIteration, h, hd]
  have hg : (get_state st t (some (CallOutcome.reply r))).1.state = s := by
    simp [get_state, workerIteration, workerResetState, hmt, hdr]
  refine ⟨hcalls, rfl, rfl, rfl, rfl, hg, ?_, ?_⟩
  · simp [get_state, workerIteration, workerResetState, hmt, hdr]
  · intro m h0 h4
    interval_cases m
    · exact ⟨ConnectivityState.UNKNOWN, rfl, rfl⟩
    · exact ⟨ConnectivityState.NONE, rfl, rfl⟩
    · exact ⟨ConnectivityState.PORTAL, rfl, rfl⟩
    · exact ⟨ConnectivityState.LIMITED, rfl, rfl⟩
    · exact ⟨ConnectivityState.FULL, rfl, rfl⟩

/-- C1 witness: a success reply with body [4] makes get_state return FULL. -/
theorem C1_witness :
    (get_state NetworkManager.init 1
        (some (CallOutcome.reply { message_type := DbusMessageType.METHOD_RETURN,
                                   body := [DbusValue.int 4] }))).2
      = ConnectivityState.FULL :=
  (C1_one_call_per_request_and_exact_decode NetworkManager.init 1 CallOutcome.exn
      { message_type := DbusMessageType.METHOD_RETURN, body := [DbusValue.int 4] }
      4 ConnectivityState.FULL (by decide) rfl rfl).2.2.2.2.2.2.1

/-- C2: get_state is a total function (it never raises to its caller): when the
wait times out it returns the value already cached in the state slot, which is
UNKNOWN when no query has ever succeeded; in every case the value returned is
exactly the slot content at return time; and the default timeout constant is
1.0. -/
theorem C2_get_state_total_timeout_returns_cached
    (st : NMState) (t : Rat) (a : Option CallOutcome) :
    (get_state st t none).2 = st.state ∧
    (get_state st t a).2 = (get_state st t a).1.state ∧
    DEFAULT_TIMEOUT = 1 := by
  refine ⟨?_, rfl, rfl⟩
  unfold get_state ensure_thread_started
  dsimp only
  split <;> rfl

/-- C3: on a serviced request the worker resets the slot to UNKNOWN before the
remote call is issued, and when the reply is of error type the slot is left at
UNKNOWN while "request pending" is cleared and "result ready" is set, so
get_state returns UNKNOWN for that request. -/
theorem C3_reset_before_call_error_reply_unknown
    (st : NMState) (t : Rat) (r : DbusReply)
    (herr : r.message_type = DbusMessageType.ERROR) :
    (workerResetState st).state = ConnectivityState.UNKNOWN ∧
    (workerIteration st (CallOutcome.reply r)).st.state = ConnectivityState.UNKNOWN ∧
    (workerIteration st (CallOutcome.reply r)).st.state_requested = false ∧
    (workerIteration st (CallOutcome.reply r)).st.state_ready = true ∧
    (workerIteration st (CallOutcome.reply r)).raised = false ∧
    (get_state st t (some (CallOutcome.reply r))).2 = ConnectivityState.UNKNOWN := by
  have hit : ∀ st0 : NMState, workerIteration st0 (CallOutcome.reply r) =
      { st := { st0 with state := ConnectivityState.UNKNOWN
                         state_requested := false
                         state_ready := true }
        calls := [checkConnectivityMessage]
        raised := false } := by
    intro st0
    simp [workerIteration, workerResetState, herr]
  refine ⟨rfl, ?_, ?_, ?_, ?_, ?_⟩ <;> simp [get_state, hit]

/-- C3 witness: an error-type reply yields UNKNOWN from get_state. -/
theorem C3_witness :
    (get_state NetworkManager.init 1
        (some (CallOutcome.reply { message_type := DbusMessageType.ERROR,
                                   body := [] }))).2
      = ConnectivityState.UNKNOWN :=
  (C3_reset_before_call_error_reply_unknown NetworkManager.init 1
      { message_type := DbusMessageType.ERROR, body := [] } rfl).2.2.2.2.2

/-- C4: an exception raised during bus connection or escaping the request loop
terminates the worker, is swallowed (the procedure still yields a state, never
an error value), and clears the thread handle, marking the worker not running;
a subsequent get_state then lazily starts a brand-new worker because
ensure_thread_started sees a cleared handle. -/
theorem C4_exception_kills_worker_lazy_restart
    (st st2 : NMState) (outs : List CallOutcome)
    (hraised : (workerLoop st outs).2 = true)
    (hdead : st2.dbus_thread = false) :
    (dbus_thread_proc_async ConnectOutcome.connectError outs st).dbus_thread = false ∧
    (dbus_thread_proc_async ConnectOutcome.connected outs st).dbus_thread = false ∧
    dbus_thread_proc_async ConnectOutcome.connected outs st =
      { (workerLoop st outs).1 with dbus_thread := false } ∧
    (ensure_thread_started st2).dbus_thread = true ∧
    (workerIteration st CallOutcome.exn).raised = true := by
  refine ⟨rfl, ?_, ?_, ?_, rfl⟩
  · simp [dbus_thread_proc_async, hraised]
  · simp [dbus_thread_proc_async, hraised]
  · simp [ensure_thread_started, hdead]

/-- C4 witness: a bus-call exception on the first request kills the worker and
clears the thread handle. -/
theorem C4_witness :
    (dbus_thread_proc_async ConnectOutcome.connected [CallOutcome.exn]
        NetworkManager.init).dbus_thread = false :=
  (C4_exception_kills_worker_lazy_restart NetworkManager.init NetworkManager.init
      [CallOutcome.exn] rfl rfl).2.1

/-- C5 counterexample: the claim says a malformed reply (here a success reply
whose first body field is the integer 7, outside 0..4) does not terminate the
worker; in the code the decode raises, the exception escapes the loop and the
thread handle is cleared, i.e. the worker terminates (the slot is indeed left
at UNKNOWN). -/
theorem C5_counterexample :
    (workerIteration NetworkManager.init
        (CallOutcome.reply { message_type := DbusMessageType.METHOD_RETURN,
                             body := [DbusValue.int 7] })).raised = true ∧
    (dbus_thread_proc_async ConnectOutcome.connected
        [CallOutcome.reply { message_type := DbusMessageType.METHOD_RETURN,
                             body := [DbusValue.int 7] }]
        NetworkManager.init).dbus_thread = false ∧
    (workerIteration NetworkManager.init
        (CallOutcome.reply { message_type := DbusMessageType.METHOD_RETURN,
                             body := [DbusValue.int 7] })).st.state
      = ConnectivityState.UNKNOWN := by
  exact ⟨rfl, rfl, rfl⟩

/-- C5 amended: an error-type reply leaves the slot at UNKNOWN, does not
terminate the worker, and hands the flags back so the worker proceeds to its
next request; but a bus-call exception or a malformed reply (missing body,
non-integer first field, or integer outside 0..4) leaves the slot at UNKNOWN
and terminates the worker: the exception reaches the outer handler, the
remaining requests are never processed and the thread handle is cleared. -/
theorem C5_failure_semantics
    (st : NMState) (r rr : DbusReply)
    (herr : r.message_type = DbusMessageType.ERROR)
    (hmt : rr.message_type ≠ DbusMessageType.ERROR)
    (hmal : decodeReply rr = none) :
    ((workerIteration st (CallOutcome.reply r)).raised = false ∧
     (workerIteration st (CallOutcome.reply r)).st.state = ConnectivityState.UNKNOWN ∧
     (workerIteration st (CallOutcome.reply r)).st.state_ready = true) ∧
    ((workerIteration st CallOutcome.exn).raised = true ∧
     (workerIteration st CallOutcome.exn).st.state = ConnectivityState.UNKNOWN) ∧
    ((workerIteration st (CallOutcome.reply rr)).raised = true ∧
     (workerIteration st (CallOutcome.reply rr)).st.state = ConnectivityState.UNKNOWN) ∧
    (∀ outs : List CallOutcome,
      dbus_thread_proc_async ConnectOutcome.connected
          (CallOutcome.reply rr :: outs) st =
        { (workerIteration st (CallOutcome.reply rr)).st with
            dbus_thread := false }) := by
  have hit : workerIteration st (CallOutcome.reply rr) =
      { st := workerResetState st
        calls := [checkConnectivityMessage]
        raised := true } := by
    simp [workerIteration, hmt, hmal]
  refine ⟨?_, ⟨rfl, rfl⟩, ?_, ?_⟩
  · simp [workerIteration, workerResetState, herr]
  · rw [hit]; exact ⟨rfl, rfl⟩
  · intro outs
    simp [dbus_thread_proc_async, workerLoop, hit]

/-- C5 amended witness: an error-type reply does not raise. -/
theorem C5_failure_semantics_witness :
    (workerIteration NetworkManager.init
        (CallOutcome.reply { message_type := DbusMessageType.ERROR,
                             body := [] })).raised = false :=
  (C5_failure_semantics NetworkManager.init
      { message_type := DbusMessageType.ERROR, body := [] }
      { message_type := DbusMessageType.METHOD_RETURN, body := [] }
      rfl (by decide) rfl).1.1

/-- C6: for every timeout and wait outcome, is_internet_connected is true when
get_state yields exactly FULL and false when it yields anything else; the
underlying classification is false on each of the four non-FULL states. -/
theorem C6_internet_connected_iff_full
    (st : NMState) (t : Rat) (a : Option CallOutcome) :
    ((get_state st t a).2 = ConnectivityState.FULL →
      is_internet_connected st t a = true) ∧
    ((get_state st t a).2 ≠ ConnectivityState.FULL →
      is_internet_connected st t a = false) ∧
    internet_connected_class ConnectivityState.UNKNOWN = false ∧
    internet_connected_class ConnectivityState.NONE = false ∧
    internet_connected_class ConnectivityState.PORTAL = false ∧
    internet_connected_class ConnectivityState.LIMITED = false ∧
    internet_connected_class ConnectivityState.FULL = true := by
  refine ⟨?_, ?_, rfl, rfl, rfl, rfl, rfl⟩
  · intro h
    simp [is_internet_connected, internet_connected_class, h]
  · intro h
    simp [is_internet_connected, internet_connected_class, h]

/-- C6 witness: with a success reply carrying 4, is_internet_connected holds. -/
theorem C6_witness :
    is_internet_connected NetworkManager.init 1
        (some (CallOutcome.reply { message_type := DbusMessageType.METHOD_RETURN,
                                   body := [DbusValue.int 4] })) = true :=
  (C6_internet_connected_iff_full NetworkManager.init 1
      (some (CallOutcome.reply { message_type := DbusMessageType.METHOD_RETURN,
                                 body := [DbusValue.int 4] }))).1 rfl

/-- C7: for every timeout and wait outcome, is_network_connected is true when
get_state yields PORTAL, LIMITED, or FULL and false when it yields UNKNOWN or
NONE; the underlying classification agrees pointwise on all five states. -/
theorem C7_network_connected_iff_portal_limited_full
    (st : NMState) (t : Rat) (a : Option CallOutcome) :
    ((get_state st t a).2 = ConnectivityState.PORTAL ∨
     (get_state st t a).2 = ConnectivityState.LIMITED ∨
     (get_state st t a).2 = ConnectivityState.FULL →
      is_network_connected st t a = true) ∧
    ((get_state st t a).2 = ConnectivityState.UNKNOWN ∨
     (get_state st t a).2 = ConnectivityState.NONE →
      is_network_connected st t a = false) ∧
    network_connected_class ConnectivityState.UNKNOWN = false ∧
    network_connected_class ConnectivityState.NONE = false ∧
    network_connected_class ConnectivityState.PORTAL = true ∧
    network_connected_class ConnectivityState.LIMITED = true ∧
    network_connected_class ConnectivityState.FULL = true := by
  refine ⟨?_, ?_, rfl, rfl, rfl, rfl, rfl⟩
  · intro h
    rcases h with h | h | h <;>
      simp [is_network_connected, network_connected_class, h]
  · intro h
    rcases h with h | h <;>
      simp [is_network_connected, network_connected_class, h]

/-- C7 witness: with a success reply carrying 2, is_network_connected holds. -/
theorem C7_witness :
    is_network_connected NetworkManager.init 1
        (some (CallOutcome.reply { message_type := DbusMessageType.METHOD_RETURN,
                                   body := [DbusValue.int 2] })) = true :=
  (C7_network_connected_iff_portal_limited_full NetworkManager.init 1
      (some (CallOutcome.reply { message_type := DbusMessageType.METHOD_RETURN,
                                 body := [DbusValue.int 2] }))).1 (Or.inl rfl)

/-- C8: after construction and after any sequence of get_state round trips, the
shared state slot holds one of the five ConnectivityState values; the initial
value is UNKNOWN, and the decoder only ever accepts the integers 0..4, so no
other value is representable after decoding. -/
theorem C8_slot_always_one_of_five
    (evs : List (Rat × Option CallOutcome)) :
    ((run NetworkManager.init evs).state = ConnectivityState.UNKNOWN ∨
     (run NetworkManager.init evs).state = ConnectivityState.NONE ∨
     (run NetworkManager.init evs).state = ConnectivityState.PORTAL ∨
     (run NetworkManager.init evs).state = ConnectivityState.LIMITED ∨
     (run NetworkManager.init evs).state = ConnectivityState.FULL) ∧
    NetworkManager.init.state = ConnectivityState.UNKNOWN ∧
    (∀ n : Int, n < 0 ∨ 4 < n → ConnectivityState.ofInt? n = none) := by
  refine ⟨?_, rfl, ?_⟩
  · generalize (run NetworkManager.init evs).state = s
    cases s <;> simp
  · intro n hn
    unfold ConnectivityState.ofInt?
    split
    all_goals first
      | rfl
      | (exfalso; omega)

/-- C8 witness: the integer 9 does not decode to any state. -/
theorem C8_witness : ConnectivityState.ofInt? 9 = none :=
  (C8_slot_always_one_of_five []).2.2 9 (Or.inr (by norm_num))

/-- C9: handle_check emits exactly two connected notifications on FULL, exactly
one network-connected notification on PORTAL and on LIMITED (strictly above
NONE but not FULL), and a disconnected notification plus a no-internet alert on
UNKNOWN and on NONE; afterwards it sleeps for the configured interval and
re-emits the check message, and the default interval is 60. -/
theorem C9_handle_check_events (t : Nat) (m : String) :
    (handle_check t ConnectivityState.FULL m).1 =
      ["ovos.phal.connectivity.internet.connected",
       "mycroft.internet.connected"] ∧
    (handle_check t ConnectivityState.PORTAL m).1 =
      ["ovos.phal.connectivity.network.connected"] ∧
    (handle_check t ConnectivityState.LIMITED m).1 =
      ["ovos.phal.connectivity.network.connected"] ∧
    (handle_check t ConnectivityState.UNKNOWN m).1 =
      ["ovos.phal.connectivity.disconnected", "enclosure.notify.no_internet"] ∧
    (handle_check t ConnectivityState.NONE m).1 =
      ["ovos.phal.connectivity.disconnected", "enclosure.notify.no_internet"] ∧
    (∀ s : ConnectivityState, (handle_check t s m).2 = (t, m)) ∧
    NetworkManagerEvents.sleep_time = 60 := by
  exact ⟨rfl, rfl, rfl, rfl, rfl, fun s => rfl, rfl⟩

/-- C10: the classification used by is_internet_connected implies the one used
by is_network_connected, pointwise on states and for the boolean queries
computed from the same observed wait outcome. -/
theorem C10_internet_class_implies_network_class
    (s : ConnectivityState) (st : NMState) (t : Rat) (a : Option CallOutcome)
    (hs : internet_connected_class s = true)
    (hq : is_internet_connected st t a = true) :
    network_connected_class s = true ∧ is_network_connected st t a = true := by
  constructor
  · cases s <;> first | rfl | simp [internet_connected_class] at hs
  · have h : (get_state st t a).2 = ConnectivityState.FULL := by
      unfold is_internet_connected internet_connected_class at hq
      exact eq_of_beq hq
    simp [is_network_connected, network_connected_class, h]

/-- C10 witness: FULL is internet-connected and hence network-connected. -/
theorem C10_witness :
    network_connected_class ConnectivityState.FULL = true ∧
    is_network_connected NetworkManager.init 1
        (some (CallOutcome.reply { message_type := DbusMessageType.METHOD_RETURN,
                                   body := [DbusValue.int 4] })) = true :=
  C10_internet_class_implies_network_class ConnectivityState.FULL
    NetworkManager.init 1
    (some (CallOutcome.reply { message_type := DbusMessageType.METHOD_RETURN,
                               body := [DbusValue.int 4] })) rfl rfl

end NeonPhalNM
